import Mathlib

/-!
Verification development for the GeoAgent HyperModal job pipeline.

The definitions below are a shallow embedding of the repository's job
queue (`HyperModalJobQueue` in the hypermodal job-queue service), the job
management HTTP routes (GET /jobs/:jobId, DELETE /jobs/:jobId), and the
worker processors (`processSARJob`, `handleLiDARProcessing`).  The queue
delegates job storage, retry, backoff and priority scheduling to the
BullMQ library with the configuration found in the source
(`attempts: 3`, `backoff: { type: 'exponential', delay: 5000 }`,
per-job `jobId` and `priority`); where a behaviour is decided by that
library rather than by repository code, the model follows BullMQ's
documented semantics and says so in its doc comment.
-/

namespace GeoAgent

/-- Job lifecycle states as exposed by the BullMQ queue used by
`HyperModalJobQueue` (waiting, active, delayed, completed, failed). -/
inductive JobState where
  | waiting
  | active
  | delayed
  | completed
  | failed
deriving DecidableEq, Repr

/-- Retry ceiling configured in `HyperModalJobQueue` (`attempts: 3`, set both
in `defaultJobOptions` and again per job in `addJob`). -/
def maxAttempts : Nat := 3

/-- Backoff base delay configured in `HyperModalJobQueue`
(`backoff: { type: 'exponential', delay: 5000 }`). -/
def backoffBaseDelayMs : Nat := 5000

/-- Exponential backoff schedule.  Modelled from the BullMQ library the queue
delegates to: for `type: 'exponential'` the delay before retry number
`attemptsMade` is `delay * 2 ^ (attemptsMade - 1)`. -/
def backoffDelayMs (attemptsMade : Nat) : Nat :=
  backoffBaseDelayMs * 2 ^ (attemptsMade - 1)

/-- The per-job record BullMQ keeps for a queued job: lifecycle state, how many
processing attempts have been made, last reported progress and the last
failure reason (`job.failedReason`). -/
structure RJob where
  state : JobState
  attemptsMade : Nat
  progress : Nat
  failedReason : Option String
deriving DecidableEq, Repr

/-- A freshly enqueued job: waiting, no attempts made, no progress, no
failure reason. -/
def freshJob : RJob :=
  { state := .waiting, attemptsMade := 0, progress := 0, failedReason := none }

/-- Modelled from BullMQ's dispatch of a waiting job to a worker: the job
becomes active and `attemptsMade` is incremented.  Stored progress is not
touched (BullMQ does not reset `job.progress` when an attempt starts). -/
def moveToActive (j : RJob) : RJob :=
  { j with state := .active, attemptsMade := j.attemptsMade + 1 }

/-- Modelled from BullMQ's `moveToFailed` with the repository's configured
options: when the processor throws, the job is retried (moved to the delayed
set, to be promoted back to waiting after the backoff delay) as long as
`attemptsMade < attempts`, and otherwise becomes terminally failed.  In both
cases the thrown error message is retained as `failedReason`. -/
def afterFailure (j : RJob) (reason : String) : RJob :=
  if j.attemptsMade < maxAttempts then
    { j with state := .delayed, failedReason := some reason }
  else
    { j with state := .failed, failedReason := some reason }

/-- Modelled from BullMQ's delayed-job promotion: once the backoff delay has
elapsed a delayed job returns to the waiting list. -/
def promote (j : RJob) : RJob :=
  if j.state = .delayed then { j with state := .waiting } else j

/-- One full processing attempt whose handler throws `reason`: the job is
activated, the failure is applied, a delayed retry is promoted back to
waiting.  Also returns the backoff delay scheduled for the retry
(`none` when the job went terminally failed instead). -/
def failedAttempt (j : RJob) (reason : String) : RJob × Option Nat :=
  let a := moveToActive j
  let f := afterFailure a reason
  (promote f, if f.state = .delayed then some (backoffDelayMs a.attemptsMade) else none)

/-- Run up to `n` processing attempts, each of which fails with
`reasons k` where `k` is the number of attempts already made; stops early on a
terminal job.  Returns the final job together with the list of backoff delays
that were scheduled. -/
def runFailingAttempts : Nat → (Nat → String) → RJob → RJob × List Nat
  | 0, _, j => (j, [])
  | n + 1, reasons, j =>
    if j.state = .failed ∨ j.state = .completed then (j, [])
    else
      let (j', d) := failedAttempt j (reasons j.attemptsMade)
      let (jf, ds) := runFailingAttempts n reasons j'
      (jf, d.toList ++ ds)

/-! ## Queue store: add, lookup, cancel (HyperModalJobQueue) -/

/-- One stored entry of the queue: the job payload (opaque here), the numeric
priority passed to `queue.add`, and the BullMQ job record. -/
structure QJobRec where
  data : String
  priority : Nat
  job : RJob
deriving DecidableEq, Repr

/-- The jobs currently known to the queue, keyed by the caller-supplied
`jobId` (BullMQ stores one hash per custom job id). -/
abbrev QState := List (String × QJobRec)

/-- Lookup of a job by id, as `queue.getJob(jobId)` does. -/
def qlookup (st : QState) (id : String) : Option QJobRec :=
  List.lookup id st

/-- Outcome of the underlying BullMQ `add` call. -/
inductive AddOutcome where
  | added
  | duplicated
deriving DecidableEq, Repr

/-- Modelled from the BullMQ `add` operation that
`HyperModalJobQueue.addJob` delegates to: when a job with the supplied custom
`jobId` already exists, the add is ignored (the stored job is left exactly as
it was) and the call still resolves successfully; no error is thrown and no
`DUPLICATE_JOB` rejection exists.  Otherwise the job is stored waiting. -/
def bullAdd (st : QState) (id : String) (data : String) (priority : Nat) :
    QState × AddOutcome :=
  match qlookup st id with
  | some _ => (st, .duplicated)
  | none => ((id, { data := data, priority := priority, job := freshJob }) :: st, .added)

/-- Translated from `HyperModalJobQueue.addJob`: it passes
`jobId`, `priority`, `attempts: 3` and the exponential backoff to `queue.add`
and returns the resulting job; only a thrown error from `queue.add` would be
re-wrapped as `Failed to add job to queue: ...`, and the duplicate-id case
does not throw. -/
def addJob (st : QState) (id : String) (data : String) (priority : Nat) :
    QState × Except String AddOutcome :=
  let (st', o) := bullAdd st id data priority
  (st', .ok o)

/-- Translated from `HyperModalJobQueue.cancelJob`: returns `false` leaving
the store untouched when the job is missing or already `completed`/`failed`;
otherwise removes the job record entirely (`job.remove()`) and returns
`true`. -/
def cancelJob (st : QState) (id : String) : Bool × QState :=
  match qlookup st id with
  | none => (false, st)
  | some r =>
    if r.job.state = .completed ∨ r.job.state = .failed then (false, st)
    else (true, st.filter (fun p => p.1 ≠ id))

/-! ## Job management routes (GET /jobs/:jobId, DELETE /jobs/:jobId) -/

/-- The observable part of an HTTP response from the job routes: status code
and the `error` code of the JSON body, when present. -/
structure ApiResponse where
  status : Nat
  errorCode : Option String
deriving DecidableEq, Repr

/-- Translated from the `GET /jobs/:jobId` route: a missing job yields
`404 JOB_NOT_FOUND`, otherwise `200` with the job payload. -/
def getJobStatusRoute (st : QState) (id : String) : ApiResponse :=
  match qlookup st id with
  | none => { status := 404, errorCode := some "JOB_NOT_FOUND" }
  | some _ => { status := 200, errorCode := none }

/-- Translated from the `DELETE /jobs/:jobId` route: when `cancelJob` returns
`false` the route answers `404 CANNOT_CANCEL`, otherwise `200`. -/
def deleteJobRoute (st : QState) (id : String) : ApiResponse × QState :=
  let (c, st') := cancelJob st id
  if c then ({ status := 200, errorCode := none }, st')
  else ({ status := 404, errorCode := some "CANNOT_CANCEL" }, st')

/-! ## SAR processor (`processSARJob` in the worker's sar-processor) -/

/-- Environment outcomes of the external collaborators a SAR run touches:
whether one of the MinIO downloads throws (index of the failing input and the
thrown message), whether the ML compute call throws, and whether the GraphRAG
`storeSARAnalysis` call throws. -/
structure SAREnv where
  downloadFail : Option (Nat × String)
  computeErr : Option String
  graphragErr : Option String
deriving Repr

/-- Observable effects of one execution of `processSARJob`: the value
returned or the error rethrown, the `updateProgress` values reported in
order, and how many of the temp files written to working storage are still
on disk when the handler exits. -/
structure SARRun where
  result : Except String String
  progressTrace : List Nat
  tempFilesRemaining : Nat
deriving Repr

/-- The operation verbs handled by the `switch (operation)` of
`processSARJob`. -/
def sarKnownOps : List String := ["interferometry", "coherence", "change_detection"]

/-- The insufficient-input error message each SAR case throws when fewer than
2 images were fetched, verbatim from the source. -/
def sarInsufficientMsg (op : String) : String :=
  if op = "interferometry" then "Interferometry requires at least 2 SAR images"
  else if op = "coherence" then "Coherence calculation requires at least 2 SAR images"
  else "Change detection requires at least 2 SAR images"

/-- Translated from the `switch (operation)` body of `processSARJob`: each
known case first throws its insufficient-input error when fewer than 2 temp
files exist, then awaits the ML compute call, then awaits
`graphragClient.storeSARAnalysis` with no surrounding try/catch (so a GraphRAG
error propagates out of the switch); the default case throws
`Unknown SAR operation: ...`. -/
def sarSwitch (op : String) (numSources : Nat) (env : SAREnv) : Except String Unit :=
  if op = "interferometry" ∨ op = "coherence" ∨ op = "change_detection" then
    if numSources < 2 then .error (sarInsufficientMsg op)
    else
      match env.computeErr with
      | some m => .error m
      | none =>
        match env.graphragErr with
        | some m => .error m
        | none => .ok ()
  else .error ("Unknown SAR operation: " ++ op)

/-- Continuation of `processSARJob` once all downloads succeeded: progress 30
was reported, the operation switch runs; an error from it is rethrown with
the `numSources` temp files left behind, while on success the temp files are
unlinked between progress 80 and 100 and the result is returned. -/
def processSARJobAfterFetch (op : String) (numSources : Nat) (env : SAREnv) : SARRun :=
  match sarSwitch op numSources env with
  | .error m =>
    { result := .error m, progressTrace := [10, 30], tempFilesRemaining := numSources }
  | .ok _ =>
    { result := .ok op, progressTrace := [10, 30, 80, 100], tempFilesRemaining := 0 }

/-- Translated from `processSARJob`: report progress 10, download each source
to a temp file (failing fast on a download error, leaving the files written so
far behind), report progress 30, run the operation switch, and only on
success unlink the temp files between progress 80 and 100.  The catch block
logs and rethrows; it does not remove temp files. -/
def processSARJob (op : String) (numSources : Nat) (env : SAREnv) : SARRun :=
  match env.downloadFail with
  | some (i, m) =>
    if i < numSources then
      { result := .error m, progressTrace := [10], tempFilesRemaining := i }
    else processSARJobAfterFetch op numSources env
  | none => processSARJobAfterFetch op numSources env

/-! ## LiDAR processor (`handleLiDARProcessing` in the worker's
lidar-processor) -/

/-- Environment outcomes of the external calls in `handleLiDARProcessing`:
the MinIO download, the optional ML classification call, the result upload
and the GraphRAG `storeLiDARAnalysis` call. -/
structure LidarEnv where
  downloadErr : Option String
  mlErr : Option String
  uploadErr : Option String
  graphragErr : Option String
deriving Repr

/-- Observable effects of one execution of `handleLiDARProcessing`. -/
structure LidarRun where
  result : Except String String
  progressTrace : List Nat
  tempFileRemaining : Bool
deriving Repr

/-- Translated from `handleLiDARProcessing`: progress 10, download, progress
20, write the temp file, progress 30; classification (progress 60) only when
`operations` includes `classify_ground` or `extract_buildings`; the elevation
placeholder (progress 80) only when it includes `dem`, `dsm` or `chm`; upload
results, progress 90; GraphRAG store (awaited, uncaught); progress 100 and
unlink on success.  Unlike the SAR handler, the catch block unlinks the temp
file before rethrowing, so no temp file survives any exit path. -/
def handleLiDARProcessing (operations : List String) (env : LidarEnv) : LidarRun :=
  match env.downloadErr with
  | some m => { result := .error m, progressTrace := [10], tempFileRemaining := false }
  | none =>
    let doClassify :=
      operations.contains "classify_ground" || operations.contains "extract_buildings"
    match (if doClassify then env.mlErr else none) with
    | some m =>
      { result := .error m, progressTrace := [10, 20, 30], tempFileRemaining := false }
    | none =>
      let doElevation :=
        operations.contains "dem" || operations.contains "dsm" || operations.contains "chm"
      let t :=
        [10, 20, 30] ++ (if doClassify then [60] else []) ++
          (if doElevation then [80] else [])
      match env.uploadErr with
      | some m => { result := .error m, progressTrace := t, tempFileRemaining := false }
      | none =>
        match env.graphragErr with
        | some m =>
          { result := .error m, progressTrace := t ++ [90], tempFileRemaining := false }
        | none =>
          { result := .ok "process", progressTrace := t ++ [90, 100],
            tempFileRemaining := false }

/-! ## Priority scheduling (BullMQ dequeue order under the repository's
priority constants) -/

/-- A job waiting for dispatch: its id, the numeric priority the repository
passed to `addJob`, and its enqueue sequence number. -/
structure WaitingJob where
  id : String
  priority : Nat
  seq : Nat
deriving DecidableEq, Repr

/-- Modelled from the BullMQ scheduler the queue delegates dispatch order to:
BullMQ documents that the highest priority is the *smallest* numeric value
(priority 1 is served before priority 2, and so on), FIFO within a priority.
`takesPrecedence a b` says job `a` is dispatched before job `b`. -/
def takesPrecedence (a b : WaitingJob) : Bool :=
  decide (a.priority < b.priority ∨ (a.priority = b.priority ∧ a.seq < b.seq))

/-- The waiting job BullMQ hands to the next free worker: the minimum under
`takesPrecedence`, i.e. smallest priority value first, then FIFO. -/
def dequeueNext : List WaitingJob → Option WaitingJob
  | [] => none
  | j :: rest =>
    match dequeueNext rest with
    | none => some j
    | some k => if takesPrecedence k j then some k else some j

/-- Priority the fusion route passes to `addJob` (source comment:
`// Highest priority for fusion`). -/
def fusionPriority : Nat := 9

/-- Priority the SAR ingest route passes to `addJob`. -/
def sarIngestPriority : Nat := 5

/-- The progress value stored on the job once an attempt has run: the last
value the handler reported through `updateProgress`, or the previously stored
value when the attempt reported nothing.  BullMQ only overwrites
`job.progress` on an `updateProgress` call. -/
def sarStoredProgressAfterAttempt (run : SARRun) (prev : Nat) : Nat :=
  run.progressTrace.getLast?.getD prev

/-- Concrete two-attempt scenario: a SAR interferometry job with two inputs
whose ML compute call times out on the first attempt; the job is retried and
dispatched again.  The value of interest is the stored progress at the start
of that second attempt. -/
def retryScenarioSecondAttemptStart : RJob :=
  let run1 := processSARJob "interferometry" 2
    { downloadFail := none, computeErr := some "ML service timeout", graphragErr := none }
  let afterRun :=
    { moveToActive freshJob with progress := sarStoredProgressAfterAttempt run1 0 }
  let retried := promote (afterFailure afterRun "ML service timeout")
  moveToActive retried

/-! ## Helper lemmas -/

/-- The SAR progress trace is always one of the three prefixes the handler
can produce. -/
theorem sar_trace_cases (op : String) (n : Nat) (env : SAREnv) :
    (processSARJob op n env).progressTrace = [10] ∨
    (processSARJob op n env).progressTrace = [10, 30] ∨
    (processSARJob op n env).progressTrace = [10, 30, 80, 100] := by
  have hA : ∀ e : SAREnv,
      (processSARJobAfterFetch op n e).progressTrace = [10, 30] ∨
      (processSARJobAfterFetch op n e).progressTrace = [10, 30, 80, 100] := by
    intro e
    unfold processSARJobAfterFetch
    cases sarSwitch op n e <;> simp
  unfold processSARJob
  rcases env with ⟨df, ce, ge⟩
  rcases df with _ | ⟨i, m⟩
  · exact Or.inr (hA _)
  · dsimp only
    by_cases h : i < n
    · rw [if_pos h]; exact Or.inl rfl
    · rw [if_neg h]; exact Or.inr (hA _)

/-- A successful SAR run reports the full checkpoint trace and has removed
its temp files. -/
theorem sar_ok_run (op : String) (n : Nat) (env : SAREnv)
    (h : (processSARJob op n env).result.isOk = true) :
    (processSARJob op n env).progressTrace = [10, 30, 80, 100] ∧
    (processSARJob op n env).tempFilesRemaining = 0 := by
  have hA : ∀ e : SAREnv, (processSARJobAfterFetch op n e).result.isOk = true →
      (processSARJobAfterFetch op n e).progressTrace = [10, 30, 80, 100] ∧
      (processSARJobAfterFetch op n e).tempFilesRemaining = 0 := by
    intro e he
    unfold processSARJobAfterFetch at he ⊢
    cases hs : sarSwitch op n e with
    | error m =>
      rw [hs] at he
      simp [Except.isOk, Except.toBool] at he
    | ok u => exact ⟨rfl, rfl⟩
  unfold processSARJob at h ⊢
  rcases env with ⟨df, ce, ge⟩
  rcases df with _ | ⟨i, m⟩
  · exact hA _ h
  · dsimp only at h ⊢
    by_cases hi : i < n
    · rw [if_pos hi] at h
      simp [Except.isOk, Except.toBool] at h
    · rw [if_neg hi] at h ⊢
      exact hA _ h

/-- The `switch` of the SAR processor rejects any operation outside its three
known cases with the `Unknown SAR operation` error. -/
theorem sarSwitch_unknown (op : String) (n : Nat) (env : SAREnv)
    (h : ¬ (op = "interferometry" ∨ op = "coherence" ∨ op = "change_detection")) :
    sarSwitch op n env = .error ("Unknown SAR operation: " ++ op) := by
  unfold sarSwitch
  rw [if_neg h]

/-- Looking up a key in a store from which that key was filtered out finds
nothing. -/
theorem qlookup_filter_self (st : QState) (id : String) :
    qlookup (st.filter (fun p => p.1 ≠ id)) id = none := by
  induction st with
  | nil => rfl
  | cons a tl ih =>
    obtain ⟨k, v⟩ := a
    by_cases hk : k = id
    · subst hk
      simpa [qlookup, List.filter] using ih
    · have hne : (id == k) = false := by
        simp [beq_iff_eq]
        exact fun he => hk he.symm
      simpa [qlookup, List.filter, hk, List.lookup, hne] using ih

/-- After an `addJob` call the job id always resolves in the store. -/
theorem addJob_lookup_some (st : QState) (id d : String) (p : Nat) :
    ∃ r, qlookup (addJob st id d p).1 id = some r := by
  unfold addJob bullAdd
  cases h : qlookup st id with
  | none =>
    refine ⟨{ data := d, priority := p, job := freshJob }, ?_⟩
    simp [qlookup, List.lookup]
  | some r => exact ⟨r, h⟩

/-- An `addJob` call whose id already resolves leaves the store unchanged
and resolves successfully with the duplicate outcome. -/
theorem addJob_on_existing (st : QState) (id d : String) (p : Nat) (r : QJobRec)
    (hr : qlookup st id = some r) :
    addJob st id d p = (st, Except.ok AddOutcome.duplicated) := by
  unfold addJob bullAdd
  rw [hr]

/-- LiDAR progress-trace facts: the trace is monotone, bounded by 100, and a
successful run ends at 100; and no exit path leaves the temp file behind. -/
theorem lidar_run_facts (ops : List String) (lenv : LidarEnv) :
    List.Chain' (· ≤ ·) (handleLiDARProcessing ops lenv).progressTrace ∧
    ((handleLiDARProcessing ops lenv).progressTrace.all (fun x => x ≤ 100)) = true ∧
    ((handleLiDARProcessing ops lenv).result.isOk = true →
      (handleLiDARProcessing ops lenv).progressTrace.getLast? = some 100) ∧
    (handleLiDARProcessing ops lenv).tempFileRemaining = false := by
  obtain ⟨de, me, ue, ge⟩ := lenv
  by_cases hc : ("classify_ground" ∈ ops ∨ "extract_buildings" ∈ ops) <;>
    by_cases he : (("dem" ∈ ops ∨ "dsm" ∈ ops) ∨ "chm" ∈ ops) <;>
      cases de <;> cases me <;> cases ue <;> cases ge <;>
        simp [handleLiDARProcessing, hc, he, Except.isOk, Except.toBool,
          List.chain'_cons, List.getLast?, List.all]

/-! ## Claims -/

/-- C1 (counterexample): a SAR interferometry job whose fetch and compute
stages succeed but whose GraphRAG (Knowledge Sink) store call throws does
NOT return a successful result — the handler rethrows the indexing error and
the job fails, contrary to the claim that indexing failure is only logged. -/
theorem c1_counterexample :
    (processSARJob "interferometry" 2
        { downloadFail := none, computeErr := none,
          graphragErr := some "GraphRAG indexing failed" }).result
      = Except.error "GraphRAG indexing failed" := by
  rfl

/-- C1 (amended): a failure of the GraphRAG store call propagates out of the
handler: in the SAR pipeline (fetch and compute succeeded, at least two
inputs) and in the LiDAR processing pipeline the handler's result is exactly
that error, so the job fails rather than completing. -/
theorem c1_amended_graphrag_failure_fails_job (m : String) (n : Nat) (h : 2 ≤ n)
    (ops : List String) :
    (processSARJob "interferometry" n
        { downloadFail := none, computeErr := none, graphragErr := some m }).result
      = Except.error m ∧
    (handleLiDARProcessing ops
        { downloadErr := none, mlErr := none, uploadErr := none,
          graphragErr := some m }).result
      = Except.error m := by
  constructor
  · have hn : ¬ (n < 2) := by omega
    simp [processSARJob, processSARJobAfterFetch, sarSwitch, hn]
  · by_cases hc : ("classify_ground" ∈ ops ∨ "extract_buildings" ∈ ops) <;>
      by_cases he : (("dem" ∈ ops ∨ "dsm" ∈ ops) ∨ "chm" ∈ ops) <;>
        simp [handleLiDARProcessing, hc, he]

/-- C1 (witness): the amended theorem applied at two inputs and the
empty operation list. -/
theorem c1_amended_witness :
    (processSARJob "interferometry" 2
        { downloadFail := none, computeErr := none,
          graphragErr := some "indexing unavailable" }).result
      = Except.error "indexing unavailable" ∧
    (handleLiDARProcessing []
        { downloadErr := none, mlErr := none, uploadErr := none,
          graphragErr := some "indexing unavailable" }).result
      = Except.error "indexing unavailable" :=
  c1_amended_graphrag_failure_fails_job "indexing unavailable" 2 (by decide) []

/-- C3 (counterexample): an interferometry job with a single source fails
with the verbatim message `Interferometry requires at least 2 SAR images`
(not `at least 2 images required`), and under the configured retry policy a
first failing attempt leaves the job waiting for retry with one attempt made
(not terminally failed with attempt 0); only after three failing attempts is
the job terminally failed, with three attempts made. -/
theorem c3_counterexample :
    (processSARJob "interferometry" 1
        { downloadFail := none, computeErr := none, graphragErr := none }).result
      = Except.error "Interferometry requires at least 2 SAR images" ∧
    "Interferometry requires at least 2 SAR images" ≠ "at least 2 images required" ∧
    (runFailingAttempts 1
        (fun _ => "Interferometry requires at least 2 SAR images") freshJob).1.state
      = JobState.waiting ∧
    (runFailingAttempts 1
        (fun _ => "Interferometry requires at least 2 SAR images") freshJob).1.attemptsMade
      = 1 ∧
    (runFailingAttempts 3
        (fun _ => "Interferometry requires at least 2 SAR images") freshJob).1.state
      = JobState.failed ∧
    (runFailingAttempts 3
        (fun _ => "Interferometry requires at least 2 SAR images") freshJob).1.attemptsMade
      = 3 := by
  refine ⟨rfl, by decide, by decide, by decide, by decide, by decide⟩

/-- C3 (amended): an interferometry job with a single source fails each
attempt with reason `Interferometry requires at least 2 SAR images`
regardless of the other collaborators; the thrown error is an ordinary
`Error` governed by the configured retry policy, so the job only reaches
terminal `failed` after the three configured attempts, with that reason
retained and both backoff delays (5 s, 10 s) consumed. -/
theorem c3_amended_insufficient_input_is_retried (ce ge : Option String) :
    (processSARJob "interferometry" 1
        { downloadFail := none, computeErr := ce, graphragErr := ge }).result
      = Except.error "Interferometry requires at least 2 SAR images" ∧
    (runFailingAttempts maxAttempts
        (fun _ => "Interferometry requires at least 2 SAR images") freshJob).1
      = { state := .failed, attemptsMade := 3, progress := 0,
          failedReason := some "Interferometry requires at least 2 SAR images" } ∧
    (runFailingAttempts maxAttempts
        (fun _ => "Interferometry requires at least 2 SAR images") freshJob).2
      = [5000, 10000] := by
  refine ⟨?_, by decide, by decide⟩
  simp [processSARJob, processSARJobAfterFetch, sarSwitch, sarInsufficientMsg]

/-- C5: on repeated handler failure the job is retried up to the configured
3 attempts with exponential backoff delays 5000 ms then 10000 ms (doubling,
never above 10000 ms); after the ceiling it is terminally `failed` with the
last failure reason retained and `attemptsMade = 3`; and a failure
transition always either terminally fails the job or re-queues it while
still under the attempt ceiling — it can never leave a job over the ceiling
waiting in the queue. -/
theorem c5_retry_backoff_policy (reasons : Nat → String) (j : RJob) (r : String) :
    (runFailingAttempts maxAttempts reasons freshJob).1.state = JobState.failed ∧
    (runFailingAttempts maxAttempts reasons freshJob).1.failedReason = some (reasons 2) ∧
    (runFailingAttempts maxAttempts reasons freshJob).1.attemptsMade = maxAttempts ∧
    (runFailingAttempts maxAttempts reasons freshJob).2
      = [backoffDelayMs 1, backoffDelayMs 2] ∧
    (runFailingAttempts maxAttempts reasons freshJob).2 = [5000, 10000] ∧
    backoffDelayMs 2 = 2 * backoffDelayMs 1 ∧
    ((runFailingAttempts maxAttempts reasons freshJob).2.all (fun d => d ≤ 10000)) = true ∧
    (afterFailure j r).failedReason = some r ∧
    ((afterFailure j r).state = JobState.failed ∨
      ((afterFailure j r).state = JobState.delayed ∧ j.attemptsMade < maxAttempts)) := by
  refine ⟨rfl, rfl, rfl, rfl, rfl, by decide, rfl, ?_, ?_⟩
  · unfold afterFailure
    by_cases hj : j.attemptsMade < maxAttempts
    · rw [if_pos hj]
    · rw [if_neg hj]
  · unfold afterFailure
    by_cases hj : j.attemptsMade < maxAttempts
    · rw [if_pos hj]; exact Or.inr ⟨rfl, hj⟩
    · rw [if_neg hj]; exact Or.inl rfl

/-- C6: evaluation at the claim's own scenario under BullMQ's documented
priority order.  The fusion route enqueues with priority 9 (intended
highest) before the SAR ingest route enqueues with priority 5, yet the next
job handed to a worker is the priority-5 job, because BullMQ serves the
*smallest* numeric priority first — the opposite of the source's own
`1-10 (10 = highest)` comment and of the claim. -/
theorem c6_priority_inversion_eval :
    dequeueNext
        [{ id := "fusion-job", priority := fusionPriority, seq := 0 },
         { id := "sar-ingest-job", priority := sarIngestPriority, seq := 1 }]
      = some { id := "sar-ingest-job", priority := sarIngestPriority, seq := 1 } ∧
    takesPrecedence
        { id := "sar-ingest-job", priority := sarIngestPriority, seq := 1 }
        { id := "fusion-job", priority := fusionPriority, seq := 0 } = true := by
  constructor <;> rfl

/-- C9: a SAR job admitted with operation `ingest` (SAR ingest route) or
`change` (SAR change route) hits the default case of the SAR processor's
switch — which only knows `interferometry`, `coherence` and
`change_detection` — so the handler always throws
`Unknown SAR operation: ...` and such a job can never return successfully,
whatever the external collaborators do. -/
theorem c9_unknown_sar_operation (n : Nat) (env : SAREnv) :
    (processSARJob "ingest" 0 env).result
      = Except.error "Unknown SAR operation: ingest" ∧
    (processSARJob "change" 0 env).result
      = Except.error "Unknown SAR operation: change" ∧
    (processSARJob "ingest" n env).result.isOk = false ∧
    (processSARJob "change" n env).result.isOk = false := by
  have hswi : ∀ (k : Nat) (e : SAREnv),
      sarSwitch "ingest" k e = .error "Unknown SAR operation: ingest" := by
    intro k e
    exact sarSwitch_unknown "ingest" k e (by decide)
  have hswc : ∀ (k : Nat) (e : SAREnv),
      sarSwitch "change" k e = .error "Unknown SAR operation: change" := by
    intro k e
    exact sarSwitch_unknown "change" k e (by decide)
  have hres : ∀ (op : String) (k : Nat) (e : SAREnv) (msg : String),
      (∀ (k' : Nat) (e' : SAREnv), sarSwitch op k' e' = .error msg) →
      (processSARJob op k e).result = Except.error msg ∨
      (∃ i m, e.downloadFail = some (i, m) ∧
        (processSARJob op k e).result = Except.error m) := by
    intro op k e msg hsw
    unfold processSARJob processSARJobAfterFetch
    rcases e with ⟨df, ce, ge⟩
    rcases df with _ | ⟨i, m⟩
    · rw [hsw]; exact Or.inl rfl
    · dsimp only
      by_cases hi : i < k
      · rw [if_pos hi]; exact Or.inr ⟨i, m, rfl, rfl⟩
      · rw [if_neg hi]; rw [hsw]; exact Or.inl rfl
  refine ⟨?_, ?_, ?_, ?_⟩
  · rcases hres "ingest" 0 env _ hswi with h | ⟨i, m, hdf, h⟩
    · exact h
    · -- with zero sources no download runs, so this branch needs i < 0
      rcases env with ⟨df, ce, ge⟩
      rw [show (processSARJob "ingest" 0 ⟨df, ce, ge⟩) =
            processSARJobAfterFetch "ingest" 0 ⟨df, ce, ge⟩ from ?_]
      · unfold processSARJobAfterFetch
        rw [hswi]
      · unfold processSARJob
        rcases df with _ | ⟨i', m'⟩
        · rfl
        · dsimp only
          rw [if_neg (Nat.not_lt_zero i')]
  · rcases env with ⟨df, ce, ge⟩
    rw [show (processSARJob "change" 0 ⟨df, ce, ge⟩) =
          processSARJobAfterFetch "change" 0 ⟨df, ce, ge⟩ from ?_]
    · unfold processSARJobAfterFetch
      rw [hswc]
    · unfold processSARJob
      rcases df with _ | ⟨i', m'⟩
      · rfl
      · dsimp only
        rw [if_neg (Nat.not_lt_zero i')]
  · rcases hres "ingest" n env _ hswi with h | ⟨i, m, hdf, h⟩ <;>
      simp [h, Except.isOk, Except.toBool]
  · rcases hres "change" n env _ hswc with h | ⟨i, m, hdf, h⟩ <;>
      simp [h, Except.isOk, Except.toBool]

/-- C2 (counterexample): enqueuing the same `jobId` twice does not return a
`DUPLICATE_JOB` rejection on the second call — `addJob` returns successfully
(the underlying add is ignored for an existing id) and the first job's
stored record is unchanged. -/
theorem c2_counterexample :
    (addJob (addJob [] "job-1" "payload-a" 5).1 "job-1" "payload-b" 9).2
      = Except.ok AddOutcome.duplicated ∧
    qlookup (addJob (addJob [] "job-1" "payload-a" 5).1 "job-1" "payload-b" 9).1 "job-1"
      = some { data := "payload-a", priority := 5, job := freshJob } := by
  constructor <;> rfl

/-- C2 (amended): for every pair of `addJob` calls with the same job id, the
second call resolves successfully with the duplicate outcome instead of a
`DUPLICATE_JOB` rejection, and the job record stored by the first call is
left exactly as it was. -/
theorem c2_amended_duplicate_add_ignored (st : QState) (id d1 d2 : String)
    (p1 p2 : Nat) :
    (addJob (addJob st id d1 p1).1 id d2 p2).2 = Except.ok AddOutcome.duplicated ∧
    qlookup (addJob (addJob st id d1 p1).1 id d2 p2).1 id
      = qlookup (addJob st id d1 p1).1 id := by
  obtain ⟨r, hr⟩ := addJob_lookup_some st id d1 p1
  rw [addJob_on_existing (addJob st id d1 p1).1 id d2 p2 r hr]
  exact ⟨rfl, rfl⟩

/-- C4: a cancel request for a job already in a terminal state (`completed`
or `failed`) returns `false` from `cancelJob` — surfaced by the DELETE route
as a 404 `CANNOT_CANCEL` rejection — and leaves the whole job store, hence
the job record, untouched. -/
theorem c4_cancel_terminal_rejected (st : QState) (id : String) (r : QJobRec)
    (hlook : qlookup st id = some r)
    (hterm : r.job.state = JobState.completed ∨ r.job.state = JobState.failed) :
    cancelJob st id = (false, st) ∧
    deleteJobRoute st id
      = ({ status := 404, errorCode := some "CANNOT_CANCEL" }, st) := by
  have hc : cancelJob st id = (false, st) := by
    unfold cancelJob
    rw [hlook]
    dsimp only
    rw [if_pos hterm]
  refine ⟨hc, ?_⟩
  unfold deleteJobRoute
  rw [hc]
  simp

/-- C4 (witness): a store holding one completed job. -/
theorem c4_witness :
    cancelJob
        [("done-job",
          { data := "d", priority := 5,
            job := { state := JobState.completed, attemptsMade := 1, progress := 100,
                     failedReason := none } })] "done-job"
      = (false,
         [("done-job",
           { data := "d", priority := 5,
             job := { state := JobState.completed, attemptsMade := 1, progress := 100,
                      failedReason := none } })]) ∧
    deleteJobRoute
        [("done-job",
          { data := "d", priority := 5,
            job := { state := JobState.completed, attemptsMade := 1, progress := 100,
                     failedReason := none } })] "done-job"
      = ({ status := 404, errorCode := some "CANNOT_CANCEL" },
         [("done-job",
           { data := "d", priority := 5,
             job := { state := JobState.completed, attemptsMade := 1, progress := 100,
                      failedReason := none } })]) :=
  c4_cancel_terminal_rejected _ "done-job" _ (by rfl) (Or.inl rfl)

/-- C7 (counterexample): a SAR interferometry job with two fetched inputs
whose compute call fails exits through the failure path with both temp files
still on disk — the SAR handler's cleanup runs only on the success path. -/
theorem c7_counterexample :
    (processSARJob "interferometry" 2
        { downloadFail := none, computeErr := some "ML service timeout",
          graphragErr := none }).tempFilesRemaining = 2 ∧
    (processSARJob "interferometry" 2
        { downloadFail := none, computeErr := some "ML service timeout",
          graphragErr := none }).result = Except.error "ML service timeout" := by
  constructor <;> rfl

/-- C7 (amended): temp-file cleanup is guaranteed on the success path of the
SAR handler (a successful run always exits with zero temp files remaining),
and in the LiDAR processing handler on every path (its catch block unlinks
before rethrowing); but in the SAR handler a failure after fetch leaves the
temp files behind. -/
theorem c7_amended_cleanup_success_only (op : String) (n : Nat) (env : SAREnv)
    (hok : (processSARJob op n env).result.isOk = true)
    (ops : List String) (lenv : LidarEnv) :
    (processSARJob op n env).tempFilesRemaining = 0 ∧
    (handleLiDARProcessing ops lenv).tempFileRemaining = false := by
  refine ⟨(sar_ok_run op n env hok).2, (lidar_run_facts ops lenv).2.2.2⟩

/-- C7 (witness): the amended theorem at a fully successful SAR run and a
failing LiDAR run. -/
theorem c7_amended_witness :
    (processSARJob "coherence" 2
        { downloadFail := none, computeErr := none,
          graphragErr := none }).tempFilesRemaining = 0 ∧
    (handleLiDARProcessing ["dem"]
        { downloadErr := none, mlErr := none, uploadErr := some "upload failed",
          graphragErr := none }).tempFileRemaining = false :=
  c7_amended_cleanup_success_only "coherence" 2
    { downloadFail := none, computeErr := none, graphragErr := none } (by rfl)
    ["dem"]
    { downloadErr := none, mlErr := none, uploadErr := some "upload failed",
      graphragErr := none }

/-- C8 (counterexample): progress does not reset to 0 at the start of a new
retry attempt.  In the concrete scenario — first attempt of a SAR
interferometry job fails in compute after reporting progress 30, the job is
retried and dispatched again — the stored progress at the start of the
second attempt is 30, not 0. -/
theorem c8_counterexample :
    retryScenarioSecondAttemptStart.progress = 30 ∧ (30 : Nat) ≠ 0 := by
  constructor <;> decide

/-- C8 (amended): within every single execution of the SAR handler the
reported progress sequence is monotonically non-decreasing, stays within
0-100, starts at checkpoint 10 (not 0), and on the success path ends at 100;
the LiDAR processing handler likewise reports a monotone trace bounded by
100 that ends at 100 on success. -/
theorem c8_amended_progress_monotone (op : String) (n : Nat) (env : SAREnv)
    (ops : List String) (lenv : LidarEnv) :
    List.Chain' (· ≤ ·) (processSARJob op n env).progressTrace ∧
    ((processSARJob op n env).progressTrace.all (fun x => x ≤ 100)) = true ∧
    (processSARJob op n env).progressTrace.head? = some 10 ∧
    ((processSARJob op n env).result.isOk = true →
      (processSARJob op n env).progressTrace.getLast? = some 100) ∧
    List.Chain' (· ≤ ·) (handleLiDARProcessing ops lenv).progressTrace ∧
    ((handleLiDARProcessing ops lenv).result.isOk = true →
      (handleLiDARProcessing ops lenv).progressTrace.getLast? = some 100) := by
  obtain ⟨hl1, hl2, hl3, _⟩ := lidar_run_facts ops lenv
  refine ⟨?_, ?_, ?_, ?_, hl1, hl3⟩
  · rcases sar_trace_cases op n env with h | h | h <;> rw [h] <;>
      simp [List.chain'_cons]
  · rcases sar_trace_cases op n env with h | h | h <;> rw [h] <;> decide
  · rcases sar_trace_cases op n env with h | h | h <;> rw [h] <;> decide
  · intro hok
    rw [(sar_ok_run op n env hok).1]
    decide

/-- C8 (witness): the amended theorem at a successful SAR coherence run and
a successful LiDAR run. -/
theorem c8_amended_witness :
    (processSARJob "coherence" 2
        { downloadFail := none, computeErr := none,
          graphragErr := none }).progressTrace.head? = some 10 ∧
    (processSARJob "coherence" 2
        { downloadFail := none, computeErr := none,
          graphragErr := none }).progressTrace.getLast? = some 100 ∧
    (handleLiDARProcessing ["dem"]
        { downloadErr := none, mlErr := none, uploadErr := none,
          graphragErr := none }).progressTrace.getLast? = some 100 :=
  ⟨(c8_amended_progress_monotone "coherence" 2
      { downloadFail := none, computeErr := none, graphragErr := none } ["dem"]
      { downloadErr := none, mlErr := none, uploadErr := none,
        graphragErr := none }).2.2.1,
   (c8_amended_progress_monotone "coherence" 2
      { downloadFail := none, computeErr := none, graphragErr := none } ["dem"]
      { downloadErr := none, mlErr := none, uploadErr := none,
        graphragErr := none }).2.2.2.1 (by rfl),
   (c8_amended_progress_monotone "coherence" 2
      { downloadFail := none, computeErr := none, graphragErr := none } ["dem"]
      { downloadErr := none, mlErr := none, uploadErr := none,
        graphragErr := none }).2.2.2.2.2 (by rfl)⟩

/-- C10: a successful cancellation removes the job record entirely
(`job.remove()` rather than a stored cancelled state): `cancelJob` returns
`true`, the id no longer resolves in the store, and a subsequent status
query answers 404 `JOB_NOT_FOUND`. -/
theorem c10_cancel_removes_record (st : QState) (id : String) (r : QJobRec)
    (hlook : qlookup st id = some r)
    (hc : r.job.state ≠ JobState.completed)
    (hf : r.job.state ≠ JobState.failed) :
    (cancelJob st id).1 = true ∧
    qlookup (cancelJob st id).2 id = none ∧
    getJobStatusRoute (cancelJob st id).2 id
      = { status := 404, errorCode := some "JOB_NOT_FOUND" } := by
  have hcond : ¬ (r.job.state = JobState.completed ∨ r.job.state = JobState.failed) := by
    rintro (h | h)
    · exact hc h
    · exact hf h
  have hcj : cancelJob st id = (true, st.filter (fun p => p.1 ≠ id)) := by
    unfold cancelJob
    rw [hlook]
    dsimp only
    rw [if_neg hcond]
  refine ⟨by rw [hcj], ?_, ?_⟩
  · rw [hcj]
    exact qlookup_filter_self st id
  · rw [hcj]
    unfold getJobStatusRoute
    rw [qlookup_filter_self st id]

/-- C10 (witness): a store holding one waiting job that gets cancelled. -/
theorem c10_witness :
    (cancelJob
        [("live-job",
          { data := "d", priority := 7,
            job := { state := JobState.waiting, attemptsMade := 0, progress := 0,
                     failedReason := none } })] "live-job").1 = true ∧
    qlookup
        (cancelJob
          [("live-job",
            { data := "d", priority := 7,
              job := { state := JobState.waiting, attemptsMade := 0, progress := 0,
                       failedReason := none } })] "live-job").2 "live-job" = none ∧
    getJobStatusRoute
        (cancelJob
          [("live-job",
            { data := "d", priority := 7,
              job := { state := JobState.waiting, attemptsMade := 0, progress := 0,
                       failedReason := none } })] "live-job").2 "live-job"
      = { status := 404, errorCode := some "JOB_NOT_FOUND" } :=
  c10_cancel_removes_record _ "live-job" _ (by rfl) (by decide) (by decide)

end GeoAgent
